import Mathlib

/-!
Verification of the settings synchronization and toggle state machine of
`src/lenovo_tray.py` (class `LenovoTrayApp`).

The embedding models:
  * the `SettingStatus` enum (Python `Enum` semantics: members declared with a
    duplicate numeric value are aliases of the first member carrying that
    value, so the enum has exactly three distinct members);
  * the cached state (`conservation_status`, `fnlock_status`,
    `kbd_led_status`) as a record `AppState`;
  * `read_file_value` — the outcome of `open`/`read` is modelled as
    `Except ReadError String` (the source catches `FileNotFoundError` and
    `PermissionError` and returns `None`);
  * `int(...)` parsing (`pyInt`), including sign handling and the underscore
    digit separators Python accepts, with `none` for `ValueError`;
  * `read_initial_status` / `update_status` (the refresh path);
  * `write_file_value` — the outcome of the `pkexec` subprocess call is
    modelled as `RunResult` (completed with return code and stderr, timeout,
    or raised exception), mapped to the Bool the source returns;
  * `toggle_conservation_mode`, `toggle_fnlock`, `cycle_kbd_leds` — each is
    instrumented to also return the string handed to `write_file_value`, so
    theorems can speak about the requested write.  The UI calls
    (`update_menu_text`, `update_tooltip`, `show_notification`) never touch
    the three cached status fields and are omitted.
-/

namespace LenovoTray

/-- The `SettingStatus` Python enum of `src/lenovo_tray.py:20`.  Python `Enum`
members with a duplicate value are aliases, so the canonical members are the
three first occurrences of the values 0, 1, 2. -/
inductive SettingStatus where
  | CONSERVATION_DISABLED
  | CONSERVATION_ENABLED
  | KBD_LED_MAX
deriving DecidableEq, Repr

/-- Alias member: `FNLOCK_DISABLED = 0` aliases `CONSERVATION_DISABLED`. -/
def SettingStatus.FNLOCK_DISABLED : SettingStatus :=
  SettingStatus.CONSERVATION_DISABLED

/-- Alias member: `FNLOCK_ENABLED = 1` aliases `CONSERVATION_ENABLED`. -/
def SettingStatus.FNLOCK_ENABLED : SettingStatus :=
  SettingStatus.CONSERVATION_ENABLED

/-- Alias member: `KBD_LED_OFF = 0` aliases `CONSERVATION_DISABLED`. -/
def SettingStatus.KBD_LED_OFF : SettingStatus :=
  SettingStatus.CONSERVATION_DISABLED

/-- Alias member: `KBD_LED_MIN = 1` aliases `CONSERVATION_ENABLED`. -/
def SettingStatus.KBD_LED_MIN : SettingStatus :=
  SettingStatus.CONSERVATION_ENABLED

/-- The numeric value carried by each enum member. -/
def SettingStatus.value : SettingStatus → Nat
  | SettingStatus.CONSERVATION_DISABLED => 0
  | SettingStatus.CONSERVATION_ENABLED => 1
  | SettingStatus.KBD_LED_MAX => 2

/-- The cached state of the three settings (`self.conservation_status`,
`self.fnlock_status`, `self.kbd_led_status`, `src/lenovo_tray.py:47`). -/
structure AppState where
  conservation_status : SettingStatus
  fnlock_status : SettingStatus
  kbd_led_status : SettingStatus
deriving DecidableEq, Repr

/-- The error kinds caught by `read_file_value` (`src/lenovo_tray.py:293`). -/
inductive ReadError where
  | fileNotFound (msg : String)
  | permissionDenied (msg : String)
deriving DecidableEq, Repr

/-- The state of the three backing files at the time of a refresh: each read
attempt either yields the raw file content or raises one of the caught
errors. -/
structure Files where
  conservation_file : Except ReadError String
  fnlock_file : Except ReadError String
  kbd_led_file : Except ReadError String

/-- Model of Python `str.strip()`: remove whitespace from both ends. -/
def pyStrip (s : String) : String :=
  String.mk (((s.toList.dropWhile Char.isWhitespace).reverse.dropWhile
    Char.isWhitespace).reverse)

/-- `read_file_value` (`src/lenovo_tray.py:288`): returns the stripped
content, or `None` when the read raised. -/
def read_file_value (file : Except ReadError String) : Option String :=
  match file with
  | Except.ok contents => some (pyStrip contents)
  | Except.error _ => none

/-- The value of a decimal digit character, `none` otherwise. -/
def digitVal (c : Char) : Option Nat :=
  if c.isDigit then some (c.toNat - 48) else none

/-- Digits of a Python integer literal after the first digit: Python's `int`
accepts single underscores between digits. -/
def pyDigitsAux : Nat → List Char → Option Nat
  | acc, [] => some acc
  | acc, '_' :: c :: rest =>
      match digitVal c with
      | some d => pyDigitsAux (acc * 10 + d) rest
      | none => none
  | _, ['_'] => none
  | acc, c :: rest =>
      match digitVal c with
      | some d => pyDigitsAux (acc * 10 + d) rest
      | none => none

/-- A nonempty digit string (underscores allowed between digits). -/
def pyDigits : List Char → Option Nat
  | [] => none
  | c :: rest =>
      match digitVal c with
      | some d => pyDigitsAux d rest
      | none => none

/-- Model of Python `int(s)` on a string: surrounding whitespace is ignored,
an optional sign precedes a nonempty digit sequence; `none` models
`ValueError`. -/
def pyInt (s : String) : Option Int :=
  match (pyStrip s).toList with
  | '+' :: rest => (pyDigits rest).map Int.ofNat
  | '-' :: rest => (pyDigits rest).map fun n => -(Int.ofNat n : Int)
  | l => (pyDigits l).map Int.ofNat

/-- `read_initial_status` (`src/lenovo_tray.py:319`): reads the three backing
files and updates the cached statuses.  A read that returns `None` leaves the
corresponding cached value untouched; kbd content that fails to parse as an
integer sets the cache to `KBD_LED_OFF`.  The trailing `update_menu_text`
call is UI-only and omitted. -/
def read_initial_status (st : AppState) (files : Files) : AppState :=
  let conservation_val := read_file_value files.conservation_file
  let st :=
    match conservation_val with
    | some v =>
        { st with conservation_status :=
            if v = "1" then SettingStatus.CONSERVATION_ENABLED
            else SettingStatus.CONSERVATION_DISABLED }
    | none => st
  let fnlock_val := read_file_value files.fnlock_file
  let st :=
    match fnlock_val with
    | some v =>
        { st with fnlock_status :=
            if v = "1" then SettingStatus.FNLOCK_ENABLED
            else SettingStatus.FNLOCK_DISABLED }
    | none => st
  let kbd_led_val := read_file_value files.kbd_led_file
  let st :=
    match kbd_led_val with
    | some v =>
        match pyInt v with
        | some led_level =>
            { st with kbd_led_status :=
                if led_level = 0 then SettingStatus.KBD_LED_OFF
                else if led_level = 1 then SettingStatus.KBD_LED_MIN
                else SettingStatus.KBD_LED_MAX }
        | none => { st with kbd_led_status := SettingStatus.KBD_LED_OFF }
    | none => st
  st

/-- `update_status` (`src/lenovo_tray.py:347`): the periodic refresh; the
`update_tooltip` call is UI-only and omitted. -/
def update_status (st : AppState) (files : Files) : AppState :=
  read_initial_status st files

/-- The outcome of the `subprocess.run(['pkexec', 'tee', path], ...)` call in
`write_file_value` (`src/lenovo_tray.py:297`): the process completed with a
return code and stderr text, the 30 second timeout expired, or the invocation
raised. -/
inductive RunResult where
  | completed (returncode : Int) (stderr : String)
  | timeoutExpired
  | raised (msg : String)
deriving DecidableEq, Repr

/-- `write_file_value` (`src/lenovo_tray.py:297`): `True` exactly when the
subprocess completed with return code 0; a non-zero exit, a timeout or an
exception all yield `False`. -/
def write_file_value (r : RunResult) : Bool :=
  match r with
  | RunResult.completed returncode _ => returncode == 0
  | RunResult.timeoutExpired => false
  | RunResult.raised _ => false

/-- `toggle_conservation_mode` (`src/lenovo_tray.py:394`), instrumented to
also return the string passed to `write_file_value`.  The cache is updated
optimistically and reverted on write failure; the UI/notification calls on
success are omitted. -/
def toggle_conservation_mode (st : AppState) (r : RunResult) :
    AppState × String :=
  let (new_value, st1) :=
    if st.conservation_status = SettingStatus.CONSERVATION_ENABLED then
      ("0", { st with conservation_status := SettingStatus.CONSERVATION_DISABLED })
    else
      ("1", { st with conservation_status := SettingStatus.CONSERVATION_ENABLED })
  if write_file_value r then
    (st1, new_value)
  else
    ({ st1 with conservation_status :=
        if new_value = "1" then SettingStatus.CONSERVATION_DISABLED
        else SettingStatus.CONSERVATION_ENABLED }, new_value)

/-- `toggle_fnlock` (`src/lenovo_tray.py:412`), instrumented like
`toggle_conservation_mode`. -/
def toggle_fnlock (st : AppState) (r : RunResult) : AppState × String :=
  let (new_value, st1) :=
    if st.fnlock_status = SettingStatus.FNLOCK_ENABLED then
      ("0", { st with fnlock_status := SettingStatus.FNLOCK_DISABLED })
    else
      ("1", { st with fnlock_status := SettingStatus.FNLOCK_ENABLED })
  if write_file_value r then
    (st1, new_value)
  else
    ({ st1 with fnlock_status :=
        if new_value = "1" then SettingStatus.FNLOCK_DISABLED
        else SettingStatus.FNLOCK_ENABLED }, new_value)

/-- `cycle_kbd_leds` (`src/lenovo_tray.py:430`), instrumented like the
toggles.  The revert on failure branches on the written string. -/
def cycle_kbd_leds (st : AppState) (r : RunResult) : AppState × String :=
  let (new_value, st1) :=
    if st.kbd_led_status = SettingStatus.KBD_LED_OFF then
      ("1", { st with kbd_led_status := SettingStatus.KBD_LED_MIN })
    else if st.kbd_led_status = SettingStatus.KBD_LED_MIN then
      ("2", { st with kbd_led_status := SettingStatus.KBD_LED_MAX })
    else
      ("0", { st with kbd_led_status := SettingStatus.KBD_LED_OFF })
  if write_file_value r then
    (st1, new_value)
  else
    (if new_value = "1" then { st1 with kbd_led_status := SettingStatus.KBD_LED_OFF }
     else if new_value = "2" then { st1 with kbd_led_status := SettingStatus.KBD_LED_MIN }
     else { st1 with kbd_led_status := SettingStatus.KBD_LED_MAX }, new_value)

/-- `read_file_value` with the exception channel made explicit: the
`try`/`except (FileNotFoundError, PermissionError)` of the source catches
every error the read can raise in this model and converts it to `None`. -/
def read_file_valueE (file : Except ReadError String) :
    Except ReadError (Option String) :=
  match file with
  | Except.ok contents => Except.ok (some (pyStrip contents))
  | Except.error _ => Except.ok none

/-- `read_initial_status` with the exception channel made explicit, to state
that no error escapes the refresh path. -/
def read_initial_statusE (st : AppState) (files : Files) :
    Except ReadError AppState := do
  let conservation_val ← read_file_valueE files.conservation_file
  let st :=
    match conservation_val with
    | some v =>
        { st with conservation_status :=
            if v = "1" then SettingStatus.CONSERVATION_ENABLED
            else SettingStatus.CONSERVATION_DISABLED }
    | none => st
  let fnlock_val ← read_file_valueE files.fnlock_file
  let st :=
    match fnlock_val with
    | some v =>
        { st with fnlock_status :=
            if v = "1" then SettingStatus.FNLOCK_ENABLED
            else SettingStatus.FNLOCK_DISABLED }
    | none => st
  let kbd_led_val ← read_file_valueE files.kbd_led_file
  let st :=
    match kbd_led_val with
    | some v =>
        match pyInt v with
        | some led_level =>
            { st with kbd_led_status :=
                if led_level = 0 then SettingStatus.KBD_LED_OFF
                else if led_level = 1 then SettingStatus.KBD_LED_MIN
                else SettingStatus.KBD_LED_MAX }
        | none => { st with kbd_led_status := SettingStatus.KBD_LED_OFF }
    | none => st
  return st

/-- `update_status` with the exception channel made explicit. -/
def update_statusE (st : AppState) (files : Files) :
    Except ReadError AppState :=
  read_initial_statusE st files

/-- Projection lemma: the conservation field after a refresh depends only on
the conservation read. -/
theorem read_initial_status_conservation (st : AppState) (files : Files) :
    (read_initial_status st files).conservation_status =
      match read_file_value files.conservation_file with
      | some v =>
          if v = "1" then SettingStatus.CONSERVATION_ENABLED
          else SettingStatus.CONSERVATION_DISABLED
      | none => st.conservation_status := by
  unfold read_initial_status
  rcases read_file_value files.conservation_file with _ | v1 <;>
    rcases read_file_value files.fnlock_file with _ | v2 <;>
      rcases read_file_value files.kbd_led_file with _ | v3 <;>
        simp <;> rcases pyInt v3 with _ | n <;> simp

/-- Projection lemma: the fnlock field after a refresh depends only on the
fnlock read. -/
theorem read_initial_status_fnlock (st : AppState) (files : Files) :
    (read_initial_status st files).fnlock_status =
      match read_file_value files.fnlock_file with
      | some v =>
          if v = "1" then SettingStatus.FNLOCK_ENABLED
          else SettingStatus.FNLOCK_DISABLED
      | none => st.fnlock_status := by
  unfold read_initial_status
  rcases read_file_value files.conservation_file with _ | v1 <;>
    rcases read_file_value files.fnlock_file with _ | v2 <;>
      rcases read_file_value files.kbd_led_file with _ | v3 <;>
        simp <;> rcases pyInt v3 with _ | n <;> simp

/-- Projection lemma: the kbd_led field after a refresh depends only on the
kbd_led read. -/
theorem read_initial_status_kbd (st : AppState) (files : Files) :
    (read_initial_status st files).kbd_led_status =
      match read_file_value files.kbd_led_file with
      | some v =>
          match pyInt v with
          | some led_level =>
              if led_level = 0 then SettingStatus.KBD_LED_OFF
              else if led_level = 1 then SettingStatus.KBD_LED_MIN
              else SettingStatus.KBD_LED_MAX
          | none => SettingStatus.KBD_LED_OFF
      | none => st.kbd_led_status := by
  unfold read_initial_status
  rcases read_file_value files.conservation_file with _ | v1 <;>
    rcases read_file_value files.fnlock_file with _ | v2 <;>
      rcases read_file_value files.kbd_led_file with _ | v3 <;>
        simp <;> rcases pyInt v3 with _ | n <;> simp

/-- C3 counterexample: with cached kbd_led Max and a missing kbd_led file,
the refresh leaves the cache at Max — a read failure is not mapped to the
default enumerated value Off, refuting the claim's failure-maps-to-default
conclusion. -/
theorem refresh_no_default_counterexample :
    (update_status
        (AppState.mk SettingStatus.CONSERVATION_DISABLED
          SettingStatus.FNLOCK_DISABLED SettingStatus.KBD_LED_MAX)
        (Files.mk (Except.ok "0") (Except.ok "0")
          (Except.error (ReadError.fileNotFound "brightness")))).kbd_led_status =
      SettingStatus.KBD_LED_MAX ∧
    SettingStatus.KBD_LED_MAX ≠ SettingStatus.KBD_LED_OFF :=
  ⟨by decide, by decide⟩

/-- C3 (amended): the refresh never propagates an exception or error to its
caller — for every state of the three backing files (missing, unreadable,
arbitrary, possibly malformed, content), with the exception channel made
explicit, `update_status` always returns `Except.ok`; a read failure leaves
that setting's cached value unchanged (while kbd content that fails integer
parsing maps to the default Off) rather than surfacing an error. -/
theorem refresh_no_error_keeps_cache_on_failure (st : AppState) (files : Files) :
    update_statusE st files = Except.ok (update_status st files) ∧
    (∀ e, files.conservation_file = Except.error e →
      (update_status st files).conservation_status = st.conservation_status) ∧
    (∀ e, files.fnlock_file = Except.error e →
      (update_status st files).fnlock_status = st.fnlock_status) ∧
    (∀ e, files.kbd_led_file = Except.error e →
      (update_status st files).kbd_led_status = st.kbd_led_status) ∧
    (∀ c, files.kbd_led_file = Except.ok c → pyInt (pyStrip c) = none →
      (update_status st files).kbd_led_status = SettingStatus.KBD_LED_OFF) := by
  refine ⟨?_, ?_, ?_, ?_, ?_⟩
  · obtain ⟨cf, ff, kf⟩ := files
    cases cf <;> cases ff <;> cases kf <;> rfl
  · intro e he
    rw [update_status, read_initial_status_conservation]
    simp [read_file_value, he]
  · intro e he
    rw [update_status, read_initial_status_fnlock]
    simp [read_file_value, he]
  · intro e he
    rw [update_status, read_initial_status_kbd]
    simp [read_file_value, he]
  · intro c hc hparse
    rw [update_status, read_initial_status_kbd]
    simp [read_file_value, hc, hparse]

/-- C3 witness: with an unreadable kbd_led file and cached kbd_led Min, the
refresh returns normally (no error in the explicit exception channel) and
the cached kbd_led value is kept. -/
theorem refresh_no_error_keeps_cache_on_failure_witness :
    update_statusE
        (AppState.mk SettingStatus.CONSERVATION_DISABLED
          SettingStatus.FNLOCK_DISABLED SettingStatus.KBD_LED_MIN)
        (Files.mk (Except.ok "1") (Except.ok "0")
          (Except.error (ReadError.permissionDenied "brightness"))) =
      Except.ok (update_status
        (AppState.mk SettingStatus.CONSERVATION_DISABLED
          SettingStatus.FNLOCK_DISABLED SettingStatus.KBD_LED_MIN)
        (Files.mk (Except.ok "1") (Except.ok "0")
          (Except.error (ReadError.permissionDenied "brightness")))) ∧
    (Files.mk (Except.ok "1") (Except.ok "0")
        (Except.error (ReadError.permissionDenied "brightness"))).kbd_led_file =
      Except.error (ReadError.permissionDenied "brightness") ∧
    (update_status
        (AppState.mk SettingStatus.CONSERVATION_DISABLED
          SettingStatus.FNLOCK_DISABLED SettingStatus.KBD_LED_MIN)
        (Files.mk (Except.ok "1") (Except.ok "0")
          (Except.error (ReadError.permissionDenied "brightness")))).kbd_led_status =
      (AppState.mk SettingStatus.CONSERVATION_DISABLED
        SettingStatus.FNLOCK_DISABLED SettingStatus.KBD_LED_MIN).kbd_led_status :=
  ⟨(refresh_no_error_keeps_cache_on_failure
      (AppState.mk SettingStatus.CONSERVATION_DISABLED
        SettingStatus.FNLOCK_DISABLED SettingStatus.KBD_LED_MIN)
      (Files.mk (Except.ok "1") (Except.ok "0")
        (Except.error (ReadError.permissionDenied "brightness")))).1,
   rfl,
   (refresh_no_error_keeps_cache_on_failure
      (AppState.mk SettingStatus.CONSERVATION_DISABLED
        SettingStatus.FNLOCK_DISABLED SettingStatus.KBD_LED_MIN)
      (Files.mk (Except.ok "1") (Except.ok "0")
        (Except.error (ReadError.permissionDenied "brightness")))).2.2.2.1
     (ReadError.permissionDenied "brightness") rfl⟩

/-- C8: for every starting state and every write outcome, toggling or
cycling one setting leaves the cached values of the other two settings
unchanged. -/
theorem toggle_cycle_frame (st : AppState) (r : RunResult) :
    (toggle_conservation_mode st r).1.fnlock_status = st.fnlock_status ∧
    (toggle_conservation_mode st r).1.kbd_led_status = st.kbd_led_status ∧
    (toggle_fnlock st r).1.conservation_status = st.conservation_status ∧
    (toggle_fnlock st r).1.kbd_led_status = st.kbd_led_status ∧
    (cycle_kbd_leds st r).1.conservation_status = st.conservation_status ∧
    (cycle_kbd_leds st r).1.fnlock_status = st.fnlock_status := by
  obtain ⟨c, f, k⟩ := st
  cases c <;> cases f <;> cases k <;>
    cases hw : write_file_value r <;>
      simp [toggle_conservation_mode, toggle_fnlock, cycle_kbd_leds, hw,
        SettingStatus.FNLOCK_DISABLED, SettingStatus.FNLOCK_ENABLED,
        SettingStatus.KBD_LED_OFF, SettingStatus.KBD_LED_MIN]

/-- C10: the `SettingStatus` enum aliases members that share a numeric code:
`CONSERVATION_DISABLED`, `FNLOCK_DISABLED` and `KBD_LED_OFF` are one member
of value 0; `CONSERVATION_ENABLED`, `FNLOCK_ENABLED` and `KBD_LED_MIN` are
one member of value 1; hence a cached status of one setting compares equal
to the same-coded status of a different setting. -/
theorem settingStatus_alias_members :
    SettingStatus.CONSERVATION_DISABLED = SettingStatus.FNLOCK_DISABLED ∧
    SettingStatus.FNLOCK_DISABLED = SettingStatus.KBD_LED_OFF ∧
    SettingStatus.CONSERVATION_ENABLED = SettingStatus.FNLOCK_ENABLED ∧
    SettingStatus.FNLOCK_ENABLED = SettingStatus.KBD_LED_MIN ∧
    SettingStatus.value SettingStatus.CONSERVATION_DISABLED = 0 ∧
    SettingStatus.value SettingStatus.FNLOCK_DISABLED = 0 ∧
    SettingStatus.value SettingStatus.KBD_LED_OFF = 0 ∧
    SettingStatus.value SettingStatus.CONSERVATION_ENABLED = 1 ∧
    SettingStatus.value SettingStatus.FNLOCK_ENABLED = 1 ∧
    SettingStatus.value SettingStatus.KBD_LED_MIN = 1 ∧
    (AppState.mk SettingStatus.CONSERVATION_ENABLED
        SettingStatus.FNLOCK_DISABLED
        SettingStatus.KBD_LED_MIN).conservation_status =
      (AppState.mk SettingStatus.CONSERVATION_ENABLED
        SettingStatus.FNLOCK_DISABLED
        SettingStatus.KBD_LED_MIN).kbd_led_status :=
  ⟨rfl, rfl, rfl, rfl, rfl, rfl, rfl, rfl, rfl, rfl, rfl⟩

/-- C1: for every setting and every pre-toggle cached value (drawn from that
setting's domain — binary for conservation/fnlock, tri-state for kbd_led),
if the privileged write fails for any reason, the cached value after the
operation equals the pre-toggle value exactly. -/
theorem toggle_cycle_revert_on_failure (st : AppState) (r : RunResult)
    (hr : write_file_value r = false)
    (hc : st.conservation_status = SettingStatus.CONSERVATION_DISABLED ∨
          st.conservation_status = SettingStatus.CONSERVATION_ENABLED)
    (hf : st.fnlock_status = SettingStatus.FNLOCK_DISABLED ∨
          st.fnlock_status = SettingStatus.FNLOCK_ENABLED) :
    (toggle_conservation_mode st r).1.conservation_status = st.conservation_status ∧
    (toggle_fnlock st r).1.fnlock_status = st.fnlock_status ∧
    (cycle_kbd_leds st r).1.kbd_led_status = st.kbd_led_status := by
  obtain ⟨c, f, k⟩ := st
  cases c <;> cases f <;> cases k <;>
    simp_all [toggle_conservation_mode, toggle_fnlock, cycle_kbd_leds,
      SettingStatus.FNLOCK_DISABLED, SettingStatus.FNLOCK_ENABLED,
      SettingStatus.KBD_LED_OFF, SettingStatus.KBD_LED_MIN]

/-- C1 witness: a timed-out write is a failure, and the failed toggle/cycle
leaves the concrete pre-toggle values (Enabled, Disabled, Min) in place. -/
theorem toggle_cycle_revert_on_failure_witness :
    write_file_value RunResult.timeoutExpired = false ∧
    ((toggle_conservation_mode
        (AppState.mk SettingStatus.CONSERVATION_ENABLED
          SettingStatus.FNLOCK_DISABLED SettingStatus.KBD_LED_MIN)
        RunResult.timeoutExpired).1.conservation_status =
      (AppState.mk SettingStatus.CONSERVATION_ENABLED
        SettingStatus.FNLOCK_DISABLED SettingStatus.KBD_LED_MIN).conservation_status ∧
     (toggle_fnlock
        (AppState.mk SettingStatus.CONSERVATION_ENABLED
          SettingStatus.FNLOCK_DISABLED SettingStatus.KBD_LED_MIN)
        RunResult.timeoutExpired).1.fnlock_status =
      (AppState.mk SettingStatus.CONSERVATION_ENABLED
        SettingStatus.FNLOCK_DISABLED SettingStatus.KBD_LED_MIN).fnlock_status ∧
     (cycle_kbd_leds
        (AppState.mk SettingStatus.CONSERVATION_ENABLED
          SettingStatus.FNLOCK_DISABLED SettingStatus.KBD_LED_MIN)
        RunResult.timeoutExpired).1.kbd_led_status =
      (AppState.mk SettingStatus.CONSERVATION_ENABLED
        SettingStatus.FNLOCK_DISABLED SettingStatus.KBD_LED_MIN).kbd_led_status) :=
  ⟨rfl, toggle_cycle_revert_on_failure
    (AppState.mk SettingStatus.CONSERVATION_ENABLED
      SettingStatus.FNLOCK_DISABLED SettingStatus.KBD_LED_MIN)
    RunResult.timeoutExpired rfl (Or.inr rfl) (Or.inl rfl)⟩

/-- C6: `cycle_kbd_leds` advances cyclically with wrap-around: from Off it
writes "1" and on success the cache is Min; from Min it writes "2" reaching
Max; from Max it writes "0" reaching Off; three consecutive successful
cycles restore the original cached value. -/
theorem cycle_kbd_leds_cycles (st : AppState) (r : RunResult)
    (hr : write_file_value r = true) :
    (st.kbd_led_status = SettingStatus.KBD_LED_OFF →
      (cycle_kbd_leds st r).2 = "1" ∧
      (cycle_kbd_leds st r).1.kbd_led_status = SettingStatus.KBD_LED_MIN) ∧
    (st.kbd_led_status = SettingStatus.KBD_LED_MIN →
      (cycle_kbd_leds st r).2 = "2" ∧
      (cycle_kbd_leds st r).1.kbd_led_status = SettingStatus.KBD_LED_MAX) ∧
    (st.kbd_led_status = SettingStatus.KBD_LED_MAX →
      (cycle_kbd_leds st r).2 = "0" ∧
      (cycle_kbd_leds st r).1.kbd_led_status = SettingStatus.KBD_LED_OFF) ∧
    (cycle_kbd_leds (cycle_kbd_leds (cycle_kbd_leds st r).1 r).1 r).1.kbd_led_status
      = st.kbd_led_status := by
  obtain ⟨c, f, k⟩ := st
  cases k <;>
    simp [cycle_kbd_leds, hr,
      SettingStatus.KBD_LED_OFF, SettingStatus.KBD_LED_MIN]

/-- C6 witness: from cached Off with a zero-exit write, the cycle writes "1"
and lands on Min. -/
theorem cycle_kbd_leds_cycles_witness :
    write_file_value (RunResult.completed 0 "") = true ∧
    (cycle_kbd_leds
        (AppState.mk SettingStatus.CONSERVATION_DISABLED
          SettingStatus.FNLOCK_DISABLED SettingStatus.KBD_LED_OFF)
        (RunResult.completed 0 "")).2 = "1" ∧
    (cycle_kbd_leds
        (AppState.mk SettingStatus.CONSERVATION_DISABLED
          SettingStatus.FNLOCK_DISABLED SettingStatus.KBD_LED_OFF)
        (RunResult.completed 0 "")).1.kbd_led_status = SettingStatus.KBD_LED_MIN :=
  ⟨by decide,
   ((cycle_kbd_leds_cycles
      (AppState.mk SettingStatus.CONSERVATION_DISABLED
        SettingStatus.FNLOCK_DISABLED SettingStatus.KBD_LED_OFF)
      (RunResult.completed 0 "") (by decide)).1 rfl).1,
   ((cycle_kbd_leds_cycles
      (AppState.mk SettingStatus.CONSERVATION_DISABLED
        SettingStatus.FNLOCK_DISABLED SettingStatus.KBD_LED_OFF)
      (RunResult.completed 0 "") (by decide)).1 rfl).2⟩

/-- C7: from cached Disabled, `toggle_conservation_mode` requests a
privileged write of "1" and on success the cache is Enabled; from Enabled it
requests "0" and on success the cache is Disabled; `toggle_fnlock` behaves
symmetrically. -/
theorem toggle_write_values (st : AppState) (r : RunResult) :
    (st.conservation_status = SettingStatus.CONSERVATION_DISABLED →
      (toggle_conservation_mode st r).2 = "1" ∧
      (write_file_value r = true →
        (toggle_conservation_mode st r).1.conservation_status =
          SettingStatus.CONSERVATION_ENABLED)) ∧
    (st.conservation_status = SettingStatus.CONSERVATION_ENABLED →
      (toggle_conservation_mode st r).2 = "0" ∧
      (write_file_value r = true →
        (toggle_conservation_mode st r).1.conservation_status =
          SettingStatus.CONSERVATION_DISABLED)) ∧
    (st.fnlock_status = SettingStatus.FNLOCK_DISABLED →
      (toggle_fnlock st r).2 = "1" ∧
      (write_file_value r = true →
        (toggle_fnlock st r).1.fnlock_status = SettingStatus.FNLOCK_ENABLED)) ∧
    (st.fnlock_status = SettingStatus.FNLOCK_ENABLED →
      (toggle_fnlock st r).2 = "0" ∧
      (write_file_value r = true →
        (toggle_fnlock st r).1.fnlock_status = SettingStatus.FNLOCK_DISABLED)) := by
  obtain ⟨c, f, k⟩ := st
  cases c <;> cases f <;>
    cases hw : write_file_value r <;>
      simp [toggle_conservation_mode, toggle_fnlock, hw,
        SettingStatus.FNLOCK_DISABLED, SettingStatus.FNLOCK_ENABLED]

/-- C7 witness: from (Disabled, Enabled) with a zero-exit write, the
conservation toggle writes "1" landing on Enabled, and the fnlock toggle
writes "0" landing on Disabled. -/
theorem toggle_write_values_witness :
    (toggle_conservation_mode
        (AppState.mk SettingStatus.CONSERVATION_DISABLED
          SettingStatus.FNLOCK_ENABLED SettingStatus.KBD_LED_OFF)
        (RunResult.completed 0 "")).2 = "1" ∧
    (toggle_conservation_mode
        (AppState.mk SettingStatus.CONSERVATION_DISABLED
          SettingStatus.FNLOCK_ENABLED SettingStatus.KBD_LED_OFF)
        (RunResult.completed 0 "")).1.conservation_status =
      SettingStatus.CONSERVATION_ENABLED ∧
    (toggle_fnlock
        (AppState.mk SettingStatus.CONSERVATION_DISABLED
          SettingStatus.FNLOCK_ENABLED SettingStatus.KBD_LED_OFF)
        (RunResult.completed 0 "")).2 = "0" ∧
    (toggle_fnlock
        (AppState.mk SettingStatus.CONSERVATION_DISABLED
          SettingStatus.FNLOCK_ENABLED SettingStatus.KBD_LED_OFF)
        (RunResult.completed 0 "")).1.fnlock_status =
      SettingStatus.FNLOCK_DISABLED :=
  ⟨((toggle_write_values
      (AppState.mk SettingStatus.CONSERVATION_DISABLED
        SettingStatus.FNLOCK_ENABLED SettingStatus.KBD_LED_OFF)
      (RunResult.completed 0 "")).1 rfl).1,
   ((toggle_write_values
      (AppState.mk SettingStatus.CONSERVATION_DISABLED
        SettingStatus.FNLOCK_ENABLED SettingStatus.KBD_LED_OFF)
      (RunResult.completed 0 "")).1 rfl).2 (by decide),
   ((toggle_write_values
      (AppState.mk SettingStatus.CONSERVATION_DISABLED
        SettingStatus.FNLOCK_ENABLED SettingStatus.KBD_LED_OFF)
      (RunResult.completed 0 "")).2.2.2 rfl).1,
   ((toggle_write_values
      (AppState.mk SettingStatus.CONSERVATION_DISABLED
        SettingStatus.FNLOCK_ENABLED SettingStatus.KBD_LED_OFF)
      (RunResult.completed 0 "")).2.2.2 rfl).2 (by decide)⟩

/-- C2 counterexample: with cached conservation Enabled and a missing
conservation file, the refresh leaves the cache at Enabled — equal to the
previously cached value, not the default Disabled the claim requires. -/
theorem refresh_overwrites_counterexample :
    (update_status
        (AppState.mk SettingStatus.CONSERVATION_ENABLED
          SettingStatus.FNLOCK_DISABLED SettingStatus.KBD_LED_OFF)
        (Files.mk (Except.error (ReadError.fileNotFound "no such file"))
          (Except.ok "0") (Except.ok "0"))).conservation_status =
      SettingStatus.CONSERVATION_ENABLED ∧
    SettingStatus.CONSERVATION_ENABLED ≠ SettingStatus.CONSERVATION_DISABLED :=
  ⟨by decide, by decide⟩

/-- C2 (amended): the refresh overwrites the cached value of each setting
whose backing-file read succeeds (kbd content that fails integer parsing
maps to the default Off); when the read of a backing file fails, that
setting's cached value is left unchanged from the prior cache — it is not
reset to the default. -/
theorem refresh_read_failure_keeps_cache (st : AppState) (files : Files) :
    (∀ e, files.conservation_file = Except.error e →
      (update_status st files).conservation_status = st.conservation_status) ∧
    (∀ e, files.fnlock_file = Except.error e →
      (update_status st files).fnlock_status = st.fnlock_status) ∧
    (∀ e, files.kbd_led_file = Except.error e →
      (update_status st files).kbd_led_status = st.kbd_led_status) ∧
    (∀ c, files.conservation_file = Except.ok c →
      (update_status st files).conservation_status =
        (if pyStrip c = "1" then SettingStatus.CONSERVATION_ENABLED
         else SettingStatus.CONSERVATION_DISABLED)) ∧
    (∀ c, files.kbd_led_file = Except.ok c → pyInt (pyStrip c) = none →
      (update_status st files).kbd_led_status = SettingStatus.KBD_LED_OFF) := by
  refine ⟨?_, ?_, ?_, ?_, ?_⟩
  · intro e he
    rw [update_status, read_initial_status_conservation]
    simp [read_file_value, he]
  · intro e he
    rw [update_status, read_initial_status_fnlock]
    simp [read_file_value, he]
  · intro e he
    rw [update_status, read_initial_status_kbd]
    simp [read_file_value, he]
  · intro c hc
    rw [update_status, read_initial_status_conservation]
    simp [read_file_value, hc]
  · intro c hc hparse
    rw [update_status, read_initial_status_kbd]
    simp [read_file_value, hc, hparse]

/-- C2 witness: a permission-denied conservation read keeps the concrete
prior cached value Enabled. -/
theorem refresh_read_failure_keeps_cache_witness :
    (Files.mk (Except.error (ReadError.permissionDenied "denied"))
        (Except.ok "1") (Except.ok "2")).conservation_file =
      Except.error (ReadError.permissionDenied "denied") ∧
    (update_status
        (AppState.mk SettingStatus.CONSERVATION_ENABLED
          SettingStatus.FNLOCK_DISABLED SettingStatus.KBD_LED_OFF)
        (Files.mk (Except.error (ReadError.permissionDenied "denied"))
          (Except.ok "1") (Except.ok "2"))).conservation_status =
      (AppState.mk SettingStatus.CONSERVATION_ENABLED
        SettingStatus.FNLOCK_DISABLED SettingStatus.KBD_LED_OFF).conservation_status :=
  ⟨rfl,
   (refresh_read_failure_keeps_cache
      (AppState.mk SettingStatus.CONSERVATION_ENABLED
        SettingStatus.FNLOCK_DISABLED SettingStatus.KBD_LED_OFF)
      (Files.mk (Except.error (ReadError.permissionDenied "denied"))
        (Except.ok "1") (Except.ok "2"))).1
     (ReadError.permissionDenied "denied") rfl⟩

/-- C4 counterexample: with cached fnlock Enabled and an unreadable fnlock
file, the refresh yields Enabled — not the Disabled the claim requires for
an unreadable file. -/
theorem binary_parse_counterexample :
    (update_status
        (AppState.mk SettingStatus.CONSERVATION_DISABLED
          SettingStatus.FNLOCK_ENABLED SettingStatus.KBD_LED_OFF)
        (Files.mk (Except.ok "0")
          (Except.error (ReadError.permissionDenied "Permission denied"))
          (Except.ok "0"))).fnlock_status =
      SettingStatus.FNLOCK_ENABLED ∧
    SettingStatus.FNLOCK_ENABLED ≠ SettingStatus.FNLOCK_DISABLED :=
  ⟨by decide, by decide⟩

/-- C4 (amended): for every content string successfully read from the
conservation or fnlock backing file, the cached value becomes Enabled iff
the whitespace-stripped content equals "1", and Disabled for every other
content; an unreadable file, however, leaves the previously cached value
unchanged rather than yielding Disabled. -/
theorem binary_parse_policy (st : AppState) (files : Files) :
    (∀ c, files.conservation_file = Except.ok c →
      (((update_status st files).conservation_status =
          SettingStatus.CONSERVATION_ENABLED ↔ pyStrip c = "1") ∧
       (pyStrip c ≠ "1" →
        (update_status st files).conservation_status =
          SettingStatus.CONSERVATION_DISABLED))) ∧
    (∀ c, files.fnlock_file = Except.ok c →
      (((update_status st files).fnlock_status =
          SettingStatus.FNLOCK_ENABLED ↔ pyStrip c = "1") ∧
       (pyStrip c ≠ "1" →
        (update_status st files).fnlock_status =
          SettingStatus.FNLOCK_DISABLED))) ∧
    (∀ e, files.conservation_file = Except.error e →
      (update_status st files).conservation_status = st.conservation_status) ∧
    (∀ e, files.fnlock_file = Except.error e →
      (update_status st files).fnlock_status = st.fnlock_status) := by
  refine ⟨?_, ?_, ?_, ?_⟩
  · intro c hc
    rw [update_status, read_initial_status_conservation]
    simp only [read_file_value, hc]
    by_cases h : pyStrip c = "1" <;>
      simp [h, SettingStatus.FNLOCK_ENABLED, SettingStatus.FNLOCK_DISABLED]
  · intro c hc
    rw [update_status, read_initial_status_fnlock]
    simp only [read_file_value, hc]
    by_cases h : pyStrip c = "1" <;>
      simp [h, SettingStatus.FNLOCK_ENABLED, SettingStatus.FNLOCK_DISABLED]
  · intro e he
    rw [update_status, read_initial_status_conservation]
    simp [read_file_value, he]
  · intro e he
    rw [update_status, read_initial_status_fnlock]
    simp [read_file_value, he]

/-- C4 witness: with conservation content " 1\n" (strips to "1") and fnlock
content "2", the refresh yields conservation Enabled and fnlock Disabled. -/
theorem binary_parse_policy_witness :
    (Files.mk (Except.ok " 1\n") (Except.ok "2") (Except.ok "0")).conservation_file =
      Except.ok " 1\n" ∧
    (Files.mk (Except.ok " 1\n") (Except.ok "2") (Except.ok "0")).fnlock_file =
      Except.ok "2" ∧
    (update_status
        (AppState.mk SettingStatus.CONSERVATION_DISABLED
          SettingStatus.FNLOCK_ENABLED SettingStatus.KBD_LED_MAX)
        (Files.mk (Except.ok " 1\n") (Except.ok "2")
          (Except.ok "0"))).conservation_status =
      SettingStatus.CONSERVATION_ENABLED ∧
    (update_status
        (AppState.mk SettingStatus.CONSERVATION_DISABLED
          SettingStatus.FNLOCK_ENABLED SettingStatus.KBD_LED_MAX)
        (Files.mk (Except.ok " 1\n") (Except.ok "2")
          (Except.ok "0"))).fnlock_status =
      SettingStatus.FNLOCK_DISABLED :=
  ⟨rfl, rfl,
   ((binary_parse_policy
      (AppState.mk SettingStatus.CONSERVATION_DISABLED
        SettingStatus.FNLOCK_ENABLED SettingStatus.KBD_LED_MAX)
      (Files.mk (Except.ok " 1\n") (Except.ok "2") (Except.ok "0"))).1
      " 1\n" rfl).1.mpr (by decide),
   ((binary_parse_policy
      (AppState.mk SettingStatus.CONSERVATION_DISABLED
        SettingStatus.FNLOCK_ENABLED SettingStatus.KBD_LED_MAX)
      (Files.mk (Except.ok " 1\n") (Except.ok "2") (Except.ok "0"))).2.1
      "2" rfl).2 (by decide)⟩

/-- C5: the kbd_led backing-file content maps exactly as: integer 0 yields
Off, integer 1 yields Min, every integer n ≥ 2 yields Max, and content that
fails integer parsing yields Off; in particular content "7" yields Max after
the refresh. -/
theorem kbd_parse_policy (st : AppState) (files : Files) (c : String)
    (hfile : files.kbd_led_file = Except.ok c) :
    (pyInt (pyStrip c) = some 0 →
      (update_status st files).kbd_led_status = SettingStatus.KBD_LED_OFF) ∧
    (pyInt (pyStrip c) = some 1 →
      (update_status st files).kbd_led_status = SettingStatus.KBD_LED_MIN) ∧
    (∀ n : Int, pyInt (pyStrip c) = some n → 2 ≤ n →
      (update_status st files).kbd_led_status = SettingStatus.KBD_LED_MAX) ∧
    (pyInt (pyStrip c) = none →
      (update_status st files).kbd_led_status = SettingStatus.KBD_LED_OFF) ∧
    (c = "7" →
      (update_status st files).kbd_led_status = SettingStatus.KBD_LED_MAX) := by
  rw [update_status, read_initial_status_kbd]
  simp only [read_file_value, hfile]
  refine ⟨?_, ?_, ?_, ?_, ?_⟩
  · intro h; simp [h]
  · intro h; simp [h]
  · intro n h hn
    simp only [h]
    rw [if_neg (by omega), if_neg (by omega)]
  · intro h; simp [h]
  · intro h; subst h; decide

/-- C5 witness: a kbd_led backing file containing "7" refreshes the cache to
Max. -/
theorem kbd_parse_policy_witness :
    (Files.mk (Except.ok "1") (Except.ok "1") (Except.ok "7")).kbd_led_file =
      Except.ok "7" ∧
    (update_status
        (AppState.mk SettingStatus.CONSERVATION_DISABLED
          SettingStatus.FNLOCK_DISABLED SettingStatus.KBD_LED_OFF)
        (Files.mk (Except.ok "1") (Except.ok "1")
          (Except.ok "7"))).kbd_led_status = SettingStatus.KBD_LED_MAX :=
  ⟨rfl,
   (kbd_parse_policy
      (AppState.mk SettingStatus.CONSERVATION_DISABLED
        SettingStatus.FNLOCK_DISABLED SettingStatus.KBD_LED_OFF)
      (Files.mk (Except.ok "1") (Except.ok "1") (Except.ok "7"))
      "7" rfl).2.2.2.2 rfl⟩

/-- C9: kbd_led content parsing as a negative integer falls into the same
branch as values ≥ 2, so the refresh sets the cached kbd_led value to Max,
not Off. -/
theorem kbd_negative_parses_as_max (st : AppState) (files : Files)
    (c : String) (n : Int)
    (hfile : files.kbd_led_file = Except.ok c)
    (hparse : pyInt (pyStrip c) = some n) (hneg : n < 0) :
    (update_status st files).kbd_led_status = SettingStatus.KBD_LED_MAX := by
  rw [update_status, read_initial_status_kbd]
  simp only [read_file_value, hfile, hparse]
  rw [if_neg (by omega), if_neg (by omega)]

/-- C9 witness: a kbd_led backing file containing "-1" refreshes the cache
to Max. -/
theorem kbd_negative_parses_as_max_witness :
    (Files.mk (Except.ok "0") (Except.ok "0") (Except.ok "-1")).kbd_led_file =
      Except.ok "-1" ∧
    pyInt (pyStrip "-1") = some (-1) ∧
    (-1 : Int) < 0 ∧
    (update_status
        (AppState.mk SettingStatus.CONSERVATION_DISABLED
          SettingStatus.FNLOCK_DISABLED SettingStatus.KBD_LED_OFF)
        (Files.mk (Except.ok "0") (Except.ok "0")
          (Except.ok "-1"))).kbd_led_status = SettingStatus.KBD_LED_MAX :=
  ⟨rfl, by decide, by decide,
   kbd_negative_parses_as_max
     (AppState.mk SettingStatus.CONSERVATION_DISABLED
       SettingStatus.FNLOCK_DISABLED SettingStatus.KBD_LED_OFF)
     (Files.mk (Except.ok "0") (Except.ok "0") (Except.ok "-1"))
     "-1" (-1) rfl (by decide) (by decide)⟩

end LenovoTray
